import Mathlib

/-!
Verification of the LLM-Chat repository (a session-scoped streaming chat
relay).  This file gives a shallow embedding of the backend endpoints of
`src/app.py` (get_history, chat, clear_session_history) and the client
helpers of `src/UI.py` (get_streaming_response, handle_message_send,
get_available_sessions, init_sessions, handle_session_deletion), and proves
the behavioural properties stated about them.

Modelling conventions:
- The persisted state is `AppState`: a map from session id to its ordered
  message log (the SQL chat-message history) together with the list of
  registered session ids (the `chat_sessions` table).
- The external LangChain wrapper `RunnableWithMessageHistory` is embedded
  following the repository's own executable model of it, the test double
  `FakeHistoryWrapper` in `src/tests/test_chat.py`: on stream start it
  appends the user's message to the history, it accumulates the streamed
  chunks into `full_response`, and after a successful stream it appends the
  assistant message; a mid-stream provider failure aborts the wrapper before
  the assistant append.
- A provider stream is a finite list of extracted chunk texts plus an
  outcome: either normal completion or an exception carrying its type name
  and message.
-/

namespace LLMChat

/-- Embedding of Python's `str.strip()`: remove leading and trailing
whitespace characters. -/
def strip (s : String) : String :=
  ⟨((s.data.dropWhile Char.isWhitespace).reverse.dropWhile Char.isWhitespace).reverse⟩

/-- Stored chat message, mirroring the LangChain message classes that
`get_history` in `src/app.py` dispatches on: `AIMessage`, `HumanMessage`,
`SystemMessage`, or any other message kind. -/
inductive StoredMsg where
  | ai (content : String)
  | human (content : String)
  | system (content : String)
  | other (content : String)
deriving DecidableEq, Repr

/-- Role string assigned by the `isinstance` chain in `get_history`
(src/app.py lines 114-122). -/
def roleOf : StoredMsg → String
  | .ai _ => "assistant"
  | .human _ => "user"
  | .system _ => "system"
  | .other _ => "unknown"

/-- Content text of a stored message (`m.content` in src/app.py line 123). -/
def contentOf : StoredMsg → String
  | .ai c => c
  | .human c => c
  | .system c => c
  | .other c => c

/-- Persistent state of the backend: per-session message logs (the SQL chat
message history keyed by session id) and the registered session ids (the
`chat_sessions` table). -/
structure AppState where
  histories : String → List StoredMsg
  sessions : List String

/-- State with no messages and no registered sessions. -/
def emptyState : AppState where
  histories := fun _ => []
  sessions := []

/-- Append one message to the end of one session's log, as
`aadd_message` does on the history handle for that session. -/
def appendMsg (st : AppState) (sid : String) (m : StoredMsg) : AppState :=
  { st with
    histories := fun s => if s = sid then st.histories s ++ [m] else st.histories s }

/-- Response shape of `GET /session/{id}/history` (`HistoryOut` in
src/app.py): the session id and the role/content pairs. -/
structure HistoryOut where
  session_id : String
  messages : List (String × String)
deriving DecidableEq, Repr

/-- Embedding of `get_history` (src/app.py lines 108-125): read the whole
log for the session and map each stored message to a role/content pair. -/
def get_history (st : AppState) (sid : String) : HistoryOut :=
  { session_id := sid
    messages := (st.histories sid).map (fun m => (roleOf m, contentOf m)) }

/-- Response body of `DELETE /session/{id}`. -/
structure DeleteOut where
  status : String
  session_id : String
deriving DecidableEq, Repr

/-- Embedding of `clear_session_history` (src/app.py lines 170-176): clear
the session's message log, delete its registry row, and report success
unconditionally. -/
def clear_session_history (st : AppState) (sid : String) : AppState × DeleteOut :=
  ({ histories := fun s => if s = sid then [] else st.histories s
     sessions := st.sessions.filter (fun s => s ≠ sid) },
   { status := "cleared", session_id := sid })

/-- Request body of `POST /chat` (`ChatIn` in src/app.py). -/
structure ChatIn where
  session_id : String
  user_message : String
deriving DecidableEq, Repr

/-- Outcome of one provider stream: normal completion, or an exception with
its type name and message. -/
inductive StreamOutcome where
  | success : StreamOutcome
  | failure (kind : String) (message : String) : StreamOutcome
deriving DecidableEq, Repr

/-- One provider stream: the chunk texts produced (each already extracted as
`chunk if isinstance(chunk, str) else chunk.content`) before the stream
completed or failed, and how it ended. -/
structure ProviderStream where
  fragments : List String
  outcome : StreamOutcome
deriving DecidableEq, Repr

/-- The diagnostic fragment yielded by the `except` branch of `gen`
(src/app.py line 165). -/
def errorFragment (kind message : String) : String :=
  "\n\n[ERROR] Provider failed: " ++ kind ++ ": " ++ message

/-- Fragments delivered to the HTTP caller by `gen` (src/app.py lines
155-166): each non-empty chunk text is relayed; a mid-stream exception is
caught and replaced by one final diagnostic fragment. -/
def genFragments (ps : ProviderStream) : List String :=
  let emitted := ps.fragments.filter (fun s => s ≠ "")
  match ps.outcome with
  | .success => emitted
  | .failure k m => emitted ++ [errorFragment k m]

/-- Left-fold accumulation of chunks, as the `full_response += chunk` loop
of the history wrapper accumulates the reply. -/
def accumFold (fs : List String) : String :=
  fs.foldl (fun a b => a ++ b) ""

/-- Result of `POST /chat`: a 400 rejection with its detail string, or a
streamed `text/plain` body given as the list of delivered fragments. -/
inductive ChatResult where
  | badRequest (detail : String) : ChatResult
  | streamed (fragments : List String) : ChatResult
deriving DecidableEq, Repr

/-- Embedding of `chat` (src/app.py lines 128-167) together with the
history wrapper semantics from the repository's test double
`FakeHistoryWrapper` (src/tests/test_chat.py): trim the session id and the
user message; reject empty input with a 400 before touching the engine;
otherwise the wrapper appends the user's message when the stream starts,
accumulates the chunks, and appends the assistant reply only after the
stream completes successfully; `gen` relays the non-empty chunks and turns a
mid-stream exception into one final diagnostic fragment. -/
def chat (st : AppState) (body : ChatIn) (ps : ProviderStream) :
    AppState × ChatResult :=
  let sid := strip body.session_id
  let userMsg := strip body.user_message
  if userMsg = "" then
    (st, .badRequest "user_message cannot be empty.")
  else
    let st1 := appendMsg st sid (.human userMsg)
    match ps.outcome with
    | .success =>
        (appendMsg st1 sid (.ai (accumFold ps.fragments)), .streamed (genFragments ps))
    | .failure _ _ =>
        (st1, .streamed (genFragments ps))

/-- Role of a message appended through the History Store interface, per the
data model of the spec (`user`, `assistant`, `system`). -/
inductive Role where
  | user : Role
  | assistant : Role
  | system : Role
deriving DecidableEq, Repr

/-- Role tag string of an appended message. -/
def Role.toTag : Role → String
  | .user => "user"
  | .assistant => "assistant"
  | .system => "system"

/-- Stored form of an appended role/content pair: the LangChain message
class the role corresponds to. -/
def Role.toStored : Role → String → StoredMsg
  | .user, c => .human c
  | .assistant, c => .ai c
  | .system, c => .system c

/-- Append a finite sequence of role/content messages to one session, in
order. -/
def appendAll (st : AppState) (sid : String) : List (Role × String) → AppState
  | [] => st
  | (r, c) :: rest => appendAll (appendMsg st sid (r.toStored c)) sid rest

/-!
Client-side embedding (`src/UI.py`).
-/

/-- Backend response observed by the client's streaming call: a successful
stream delivering a list of text chunks, an HTTP error status with its body
text, or a network/client exception with its message. -/
inductive BackendResponse where
  | ok (chunks : List String) : BackendResponse
  | httpError (status : Nat) (text : String) : BackendResponse
  | clientError (message : String) : BackendResponse
deriving DecidableEq, Repr

/-- The `combined += chunk; yield combined` loop of
`get_streaming_response` (src/UI.py lines 33-36): each incoming chunk is
appended to the running accumulator and the accumulator is yielded. -/
def accumulate (combined : String) : List String → List String
  | [] => []
  | c :: cs => (combined ++ c) :: accumulate (combined ++ c) cs

/-- Embedding of `get_streaming_response` (src/UI.py lines 27-41): on a
successful stream yield the cumulative concatenation after every chunk; on
an HTTP error or a client exception yield a single error message. -/
def get_streaming_response : BackendResponse → List String
  | .ok chunks => accumulate "" chunks
  | .httpError status text =>
      ["[ERROR] Backend returned " ++ toString status ++ ": " ++ text]
  | .clientError message => ["[ERROR] Network/client error: " ++ message]

/-- Embedding of `handle_message_send` (src/UI.py lines 62-76), returning
the successive chatbot states it yields.  An empty (after stripping) message
yields nothing new; otherwise a user bubble with an empty assistant side is
appended and, for each partial response of the stream, the last bubble's
assistant side is overwritten with that cumulative text.  Since the last
bubble is always the freshly appended `(msg, ·)` pair, each yielded state is
the prior history plus that overwritten bubble. -/
def handle_message_send (currentSessionId : Option String)
    (userMsg : Option String) (chatHistory : Option (List (String × String)))
    (resp : BackendResponse) : List (List (String × String)) :=
  let _sid := strip (currentSessionId.getD "default")
  let msg := strip (userMsg.getD "")
  if msg = "" then []
  else
    (get_streaming_response resp).map
      (fun fullResponse => chatHistory.getD [] ++ [(msg, fullResponse)])

/-- Embedding of `get_available_sessions` (src/UI.py lines 9-17): a
successful listing call returns the server's session list; any failure
(exception, bad status, missing key) falls back to `["default"]`. -/
def get_available_sessions : Option (List String) → List String
  | some sessionsList => sessionsList
  | none => ["default"]

/-- Embedding of `init_sessions` (src/UI.py lines 45-51): fetch the session
list (with its fallback); if it is empty create one fresh session; select
the first entry.  `freshId` stands for the id a `create_session` call would
return. -/
def init_sessions (listResponse : Option (List String)) (freshId : String) :
    List String × String :=
  let sessions := get_available_sessions listResponse
  let sessions := if sessions.isEmpty then [freshId] else sessions
  (sessions, sessions.headD "")

/-- Outcome of `handle_session_deletion`: the early return when no session
is selected, or the normal path with the new choices list, the newly
selected value, and the status line. -/
inductive DeletionOutcome where
  | noSelection (choices : List String) (status : String) : DeletionOutcome
  | done (choices : List String) (newValue : String) (status : String) :
      DeletionOutcome
deriving DecidableEq, Repr

/-- Embedding of `handle_session_deletion` (src/UI.py lines 125-156): with
no selected session return unchanged; otherwise delete on the server, drop
the id from the local choices, and if no choices remain create one fresh
session (`freshId`) and select it, else select the first remaining choice
with a status reflecting the server's delete response. -/
def handle_session_deletion (currentSessionId : Option String)
    (currentChoices : Option (List String)) (deleteStatus : Nat)
    (deleteText : String) (freshId : String) : DeletionOutcome :=
  let sessionToBeDeleted := strip (currentSessionId.getD "")
  let choices := currentChoices.getD []
  if sessionToBeDeleted = "" then
    .noSelection choices "Select a session first."
  else
    let choices := choices.filter (fun c => c ≠ sessionToBeDeleted)
    if choices.isEmpty then
      .done [freshId] freshId "Deleted. Started a new chat."
    else
      .done choices (choices.headD "")
        (if deleteStatus = 200 then "Deleted."
         else "Delete failed: " ++ deleteText)

/-!
Specification-side definitions used to state the claims.
-/

/-- Concatenation of a fragment list in production order. -/
def concatAll : List String → String
  | [] => ""
  | c :: cs => c ++ concatAll cs

/-- The cumulative renders the spec expects for a fragment list: the
concatenations of each non-empty prefix, in order. -/
def cumulativeRenders : List String → List String
  | [] => []
  | f :: fs => f :: (cumulativeRenders fs).map (fun s => f ++ s)

/-!
Helper lemmas.
-/

theorem foldl_append_eq (l : List String) :
    ∀ a : String, l.foldl (fun x y => x ++ y) a = a ++ concatAll l := by
  induction l with
  | nil => intro a; simp [concatAll]
  | cons c cs ih => intro a; simp [concatAll, ih, String.append_assoc]

theorem accumFold_eq_concatAll (fs : List String) : accumFold fs = concatAll fs := by
  simp [accumFold, foldl_append_eq]

theorem concatAll_filter (fs : List String) :
    concatAll (fs.filter (fun s => !decide (s = ""))) = concatAll fs := by
  induction fs with
  | nil => rfl
  | cons c cs ih =>
    by_cases hc : c = ""
    · subst hc; simpa [concatAll] using ih
    · simp [List.filter_cons, hc, concatAll, ih]

theorem accumulate_eq_renders (fs : List String) :
    ∀ pre : String,
      accumulate pre fs = (cumulativeRenders fs).map (fun s => pre ++ s) := by
  induction fs with
  | nil => intro pre; rfl
  | cons f fs ih =>
    intro pre
    simp [accumulate, cumulativeRenders, ih, List.map_map, Function.comp,
      String.append_assoc]

theorem cumulativeRenders_getElem (fs : List String) :
    ∀ i : Nat, i < fs.length →
      (cumulativeRenders fs)[i]? = some (concatAll (fs.take (i + 1))) := by
  induction fs with
  | nil => intro i h; simp at h
  | cons f fs ih =>
    intro i h
    cases i with
    | zero => simp [cumulativeRenders, concatAll]
    | succ n => simp [cumulativeRenders, concatAll, ih n (by simpa using h)]

theorem roleOf_toStored (r : Role) (c : String) :
    roleOf (r.toStored c) = r.toTag := by
  cases r <;> rfl

theorem contentOf_toStored (r : Role) (c : String) :
    contentOf (r.toStored c) = c := by
  cases r <;> rfl

theorem appendAll_histories (sid : String) :
    ∀ (ms : List (Role × String)) (st : AppState),
      (appendAll st sid ms).histories sid
        = st.histories sid ++ ms.map (fun p => p.1.toStored p.2) := by
  intro ms
  induction ms with
  | nil => intro st; simp [appendAll]
  | cons p rest ih =>
    intro st
    obtain ⟨r, c⟩ := p
    simp [appendAll, ih, appendMsg]

/-!
Claim theorems.
-/

/-- C3: a POST /chat whose user_message is empty or whitespace-only after
trimming is rejected with the 400 response, the state is unchanged (no
message appended to any session), and the result does not depend on the
provider stream at all — the Completion Engine is never consulted. -/
theorem chat_empty_input_rejected_without_side_effect (st : AppState)
    (body : ChatIn) (ps ps2 : ProviderStream)
    (h : strip body.user_message = "") :
    chat st body ps = (st, .badRequest "user_message cannot be empty.")
      ∧ chat st body ps = chat st body ps2 := by
  constructor <;> simp [chat, h]

/-- Witness for C3 at a whitespace-only message. -/
theorem chat_empty_input_rejected_without_side_effect_witness :
    chat emptyState ⟨"1", "   "⟩ ⟨["HEL"], .success⟩
        = (emptyState, .badRequest "user_message cannot be empty.")
      ∧ chat emptyState ⟨"1", "   "⟩ ⟨["HEL"], .success⟩
        = chat emptyState ⟨"1", "   "⟩ ⟨[], .failure "X" "y"⟩ :=
  chat_empty_input_rejected_without_side_effect emptyState ⟨"1", "   "⟩
    ⟨["HEL"], .success⟩ ⟨[], .failure "X" "y"⟩ (by decide)

/-- C4: round trip — appending any finite sequence of role/content messages
to a session and reading the history back returns exactly that sequence, in
append order, with each role tag and content preserved verbatim. -/
theorem get_history_round_trip (sid : String) (ms : List (Role × String)) :
    (get_history (appendAll emptyState sid ms) sid).messages
      = ms.map (fun p => (p.1.toTag, p.2)) := by
  simp [get_history, appendAll_histories, emptyState, List.map_map,
    Function.comp, roleOf_toStored, contentOf_toStored]

/-- C5: DELETE /session/S is idempotent — a second deletion yields the same
end state as the first, both calls return the success body, and afterwards
S's history is empty and S is absent from the session list; the success body
is returned regardless of whether S was ever created. -/
theorem delete_session_idempotent (st : AppState) (sid : String) :
    (clear_session_history (clear_session_history st sid).1 sid).1
        = (clear_session_history st sid).1
      ∧ (clear_session_history st sid).2 = ⟨"cleared", sid⟩
      ∧ (clear_session_history (clear_session_history st sid).1 sid).2
        = ⟨"cleared", sid⟩
      ∧ ((clear_session_history st sid).1).histories sid = []
      ∧ sid ∉ ((clear_session_history st sid).1).sessions := by
  refine ⟨?_, rfl, rfl, by simp [clear_session_history], ?_⟩
  · simp only [clear_session_history, AppState.mk.injEq]
    constructor
    · funext s; by_cases h : s = sid <;> simp [h]
    · simp [List.filter_filter]
  · simp [clear_session_history, List.mem_filter]

/-- C7: GET /session/S/history never errors — for any session identifier,
including one never created, it returns the session id with an empty
message list whenever no messages are recorded. -/
theorem get_history_unknown_session_empty (st : AppState) (sid : String)
    (h : st.histories sid = []) : get_history st sid = ⟨sid, []⟩ := by
  simp [get_history, h]

/-- Witness for C7 at a never-created session id. -/
theorem get_history_unknown_session_empty_witness :
    get_history emptyState "never-created" = ⟨"never-created", []⟩ :=
  get_history_unknown_session_empty emptyState "never-created" rfl

/-- C10: GET /session/S/history is total over stored message kinds — a
stored message that is not an AI, Human, or System message is returned with
role "unknown", a value outside the {user, assistant, system} set. -/
theorem get_history_unknown_role_total (st : AppState) (sid c : String)
    (h : st.histories sid = [.other c]) :
    (get_history st sid).messages = [("unknown", c)]
      ∧ ("unknown" : String) ≠ "user"
      ∧ ("unknown" : String) ≠ "assistant"
      ∧ ("unknown" : String) ≠ "system" := by
  refine ⟨?_, by decide, by decide, by decide⟩
  simp [get_history, h, roleOf, contentOf]

/-- Witness for C10 at a concrete store holding one unrecognised message. -/
theorem get_history_unknown_role_total_witness :
    (get_history (appendMsg emptyState "s1" (.other "x")) "s1").messages
        = [("unknown", "x")]
      ∧ ("unknown" : String) ≠ "user"
      ∧ ("unknown" : String) ≠ "assistant"
      ∧ ("unknown" : String) ≠ "system" :=
  get_history_unknown_role_total (appendMsg emptyState "s1" (.other "x")) "s1" "x"
    (by simp [appendMsg, emptyState])

/-- C1: a POST /chat with non-empty (after trimming) user_message whose
stream completes successfully leaves the session's history extended by
exactly two new entries, in order: a user message carrying the trimmed
input, then an assistant message carrying the concatenation, in production
order, of the streamed fragments; the response streams exactly those
fragments. -/
theorem chat_success_appends_user_then_assistant (st : AppState)
    (body : ChatIn) (fs : List String) (h : strip body.user_message ≠ "") :
    ((chat st body ⟨fs, .success⟩).1).histories (strip body.session_id)
        = st.histories (strip body.session_id)
          ++ [.human (strip body.user_message),
              .ai (concatAll (genFragments ⟨fs, .success⟩))]
      ∧ (chat st body ⟨fs, .success⟩).2
        = .streamed (genFragments ⟨fs, .success⟩) := by
  constructor
  · simp [chat, h, appendMsg, genFragments, accumFold_eq_concatAll,
      concatAll_filter]
  · simp [chat, h]

/-- Witness for C1 at the spec's example exchange. -/
theorem chat_success_appends_user_then_assistant_witness :
    ((chat emptyState ⟨"abc", " Hello "⟩ ⟨["HEL", "LO: ", "X"], .success⟩).1).histories
          (strip "abc")
        = emptyState.histories (strip "abc")
          ++ [.human (strip " Hello "),
              .ai (concatAll (genFragments ⟨["HEL", "LO: ", "X"], .success⟩))]
      ∧ (chat emptyState ⟨"abc", " Hello "⟩ ⟨["HEL", "LO: ", "X"], .success⟩).2
        = .streamed (genFragments ⟨["HEL", "LO: ", "X"], .success⟩) :=
  chat_success_appends_user_then_assistant emptyState ⟨"abc", " Hello "⟩
    ["HEL", "LO: ", "X"] (by decide)

/-- C2: when the provider stream raises mid-stream, the response stream does
not propagate the exception: it delivers exactly the fragments already
emitted (unchanged, the same ones a successful stream of those fragments
would deliver) followed by one final diagnostic fragment, whose text is the
"[ERROR]"-marked description of the failure kind and message, and then
terminates. -/
theorem chat_midstream_failure_yields_single_diagnostic (st : AppState)
    (body : ChatIn) (fs : List String) (k m : String)
    (h : strip body.user_message ≠ "") :
    (chat st body ⟨fs, .failure k m⟩).2
        = .streamed (genFragments ⟨fs, .success⟩ ++ [errorFragment k m])
      ∧ errorFragment k m
        = "\n\n" ++ ("[ERROR] Provider failed: " ++ (k ++ (": " ++ m))) := by
  constructor
  · simp [chat, h, genFragments]
  · have hdata : ("\n\n[ERROR] Provider failed: " : String).data
        = ("\n\n" : String).data ++ ("[ERROR] Provider failed: " : String).data := by
      decide
    apply String.ext
    simp [errorFragment, hdata]

/-- Witness for C2 at a concrete mid-stream failure. -/
theorem chat_midstream_failure_yields_single_diagnostic_witness :
    (chat emptyState ⟨"abc", "Hi"⟩ ⟨["HEL"], .failure "ValueError" "boom"⟩).2
        = .streamed (genFragments ⟨["HEL"], .success⟩
            ++ [errorFragment "ValueError" "boom"])
      ∧ errorFragment "ValueError" "boom"
        = "\n\n" ++ ("[ERROR] Provider failed: "
            ++ ("ValueError" ++ (": " ++ "boom"))) :=
  chat_midstream_failure_yields_single_diagnostic emptyState ⟨"abc", "Hi"⟩
    ["HEL"] "ValueError" "boom" (by decide)

/-- C6: when the Completion Engine fails before producing any fragment, the
exchange still persists the question — the session's history gains the
user's message as its (only, hence first) new entry, and the caller receives
the single diagnostic fragment. -/
theorem chat_immediate_failure_persists_question (st : AppState)
    (body : ChatIn) (k m : String) (h : strip body.user_message ≠ "") :
    ((chat st body ⟨[], .failure k m⟩).1).histories (strip body.session_id)
        = st.histories (strip body.session_id)
          ++ [.human (strip body.user_message)]
      ∧ (chat st body ⟨[], .failure k m⟩).2
        = .streamed [errorFragment k m] := by
  constructor <;> simp [chat, h, appendMsg, genFragments]

/-- Witness for C6 at a concrete immediate failure. -/
theorem chat_immediate_failure_persists_question_witness :
    ((chat emptyState ⟨"abc", "Hi"⟩ ⟨[], .failure "TimeoutError" "t"⟩).1).histories
          (strip "abc")
        = emptyState.histories (strip "abc") ++ [.human (strip "Hi")]
      ∧ (chat emptyState ⟨"abc", "Hi"⟩ ⟨[], .failure "TimeoutError" "t"⟩).2
        = .streamed [errorFragment "TimeoutError" "t"] :=
  chat_immediate_failure_persists_question emptyState ⟨"abc", "Hi"⟩
    "TimeoutError" "t" (by decide)

/-- C8: for a streamed reply delivered as fragments f1..fn, the client
yields, in order, one chatbot state per fragment in which the last bubble's
assistant side is the cumulative concatenation of the fragments so far —
the i-th render is f1 ++ ... ++ f(i+1) — and on the spec's example
["HEL", "LO: ", "X"] the renders are "HEL", "HELLO: ", "HELLO: X". -/
theorem handle_message_send_renders_cumulative (currentSessionId : Option String)
    (hist : List (String × String)) (m : String) (fs : List String)
    (hm : strip m ≠ "") :
    handle_message_send currentSessionId (some m) (some hist) (.ok fs)
        = (cumulativeRenders fs).map (fun p => hist ++ [(strip m, p)])
      ∧ (∀ i : Nat, i < fs.length →
          (cumulativeRenders fs)[i]? = some (concatAll (fs.take (i + 1))))
      ∧ cumulativeRenders ["HEL", "LO: ", "X"] = ["HEL", "HELLO: ", "HELLO: X"] := by
  refine ⟨?_, fun i hi => cumulativeRenders_getElem fs i hi, by decide⟩
  simp [handle_message_send, hm, get_streaming_response, accumulate_eq_renders,
    List.map_map, Function.comp]

/-- Witness for C8 at the spec's example fragment list. -/
theorem handle_message_send_renders_cumulative_witness :
    handle_message_send (some "abc") (some "Hello") (some [])
          (.ok ["HEL", "LO: ", "X"])
        = (cumulativeRenders ["HEL", "LO: ", "X"]).map
            (fun p => [] ++ [(strip "Hello", p)])
      ∧ (∀ i : Nat, i < (["HEL", "LO: ", "X"] : List String).length →
          (cumulativeRenders ["HEL", "LO: ", "X"])[i]?
            = some (concatAll ((["HEL", "LO: ", "X"] : List String).take (i + 1))))
      ∧ cumulativeRenders ["HEL", "LO: ", "X"] = ["HEL", "HELLO: ", "HELLO: X"] :=
  handle_message_send_renders_cumulative (some "abc") [] "Hello"
    ["HEL", "LO: ", "X"] (by decide)

/-- C9: the interface always keeps at least one selectable session — after
startup the session list is never empty (a failed list call falls back to
the "default" placeholder, an empty list triggers creation of a fresh
session), and deleting a selected session always ends with a non-empty
choices list, a fresh session being created whenever the deleted one was the
last remaining. -/
theorem ui_never_without_session (listResponse : Option (List String))
    (freshId : String) (sel : Option String) (choices : Option (List String))
    (code : Nat) (txt : String) (hsel : strip (sel.getD "") ≠ "") :
    (init_sessions listResponse freshId).1 ≠ []
      ∧ init_sessions none freshId = (["default"], "default")
      ∧ init_sessions (some []) freshId = ([freshId], freshId)
      ∧ (∃ cs v s, handle_session_deletion sel choices code txt freshId
            = .done cs v s ∧ cs ≠ [])
      ∧ ((choices.getD []).filter (fun c => c ≠ strip (sel.getD "")) = [] →
          handle_session_deletion sel choices code txt freshId
            = .done [freshId] freshId "Deleted. Started a new chat.") := by
  refine ⟨?_, rfl, rfl, ?_, ?_⟩
  · cases listResponse with
    | none => simp [init_sessions, get_available_sessions]
    | some l =>
      by_cases hl : l.isEmpty
      · simp [init_sessions, get_available_sessions, hl]
      · simp only [init_sessions, get_available_sessions, hl, if_neg,
          Bool.false_eq_true, not_false_eq_true]
        simpa [List.isEmpty_iff] using hl
  · simp only [handle_session_deletion]
    rw [if_neg hsel]
    split
    · exact ⟨[freshId], freshId, "Deleted. Started a new chat.", rfl, by simp⟩
    · next hne => exact ⟨_, _, _, rfl, by simpa [List.isEmpty_iff] using hne⟩
  · intro hfil
    simp only [handle_session_deletion]
    rw [if_neg hsel, hfil]
    rfl

/-- Witness for C9 at a concrete startup and last-session deletion. -/
theorem ui_never_without_session_witness :
    (init_sessions (some ["a"]) "f").1 ≠ []
      ∧ init_sessions none "f" = (["default"], "default")
      ∧ init_sessions (some []) "f" = (["f"], "f")
      ∧ (∃ cs v s, handle_session_deletion (some "a") (some ["a"]) 200 "" "f"
            = .done cs v s ∧ cs ≠ [])
      ∧ (((some ["a"] : Option (List String)).getD []).filter
            (fun c => c ≠ strip ((some "a" : Option String).getD "")) = [] →
          handle_session_deletion (some "a") (some ["a"]) 200 "" "f"
            = .done ["f"] "f" "Deleted. Started a new chat.") :=
  ui_never_without_session (some ["a"]) "f" (some "a") (some ["a"]) 200 ""
    (by decide)

end LLMChat
